import Mathlib

/-!
Verification of the containerized job orchestration subsystem
(`automl/docker.py`, class `DockerBenchmark`).

The Python source is shallowly embedded: each method becomes a Lean
function over explicit inputs (the results of external effects — the
image-existence query, the descriptor file write — are passed in as
parameters), and `setup` returns an explicit trace of the image actions
it performed.
-/

namespace AutoML

/-! ## Data model -/

/-- The three setup modes of `Benchmark.SetupMode` (`auto`, `skip`, `force`),
as referenced by `DockerBenchmark.setup`. -/
inductive SetupMode where
  | auto
  | skip
  | force
deriving DecidableEq, Repr

/-- The `docker_image` metadata of a framework definition:
`author`, optional `image` (Python `None` ↦ `none`), `tag`. -/
structure DockerImageDef where
  author : String
  image : Option String
  tag : String
deriving DecidableEq, Repr

/-- A `FrameworkDefinition` as consumed by `DockerBenchmark.docker_image_name`:
the framework `name` plus its `docker_image` metadata. -/
structure FrameworkDefinition where
  name : String
  docker_image : DockerImageDef
deriving DecidableEq, Repr

/-- Python truthiness of an optional string: `None` and `""` are falsy. -/
def optStrTruthy : Option String → Bool
  | none => false
  | some s => !(s = "")

/-- Python `str.lower()` on one character (ASCII range). -/
def pyLowerChar (c : Char) : Char :=
  if 'A' ≤ c ∧ c ≤ 'Z' then Char.ofNat (c.toNat + 32) else c

/-- Python `str.lower()` (ASCII range). -/
def pyLower (s : String) : String := (s.toList.map pyLowerChar).asString

/-- `DockerBenchmark.docker_image_name(framework_def)`:
`"{author}/{image}:{tag}"` where `image` falls back to
`framework_def.name.lower()` when `di.image` is falsy (`None` or `""`). -/
def docker_image_name (framework_def : FrameworkDefinition) : String :=
  let di := framework_def.docker_image
  di.author ++ "/" ++
    (if optStrTruthy di.image then di.image.getD "" else pyLower framework_def.name) ++
    ":" ++ di.tag

/-! ## `_validate`: parallel-jobs clamping

`if self.parallel_jobs == 0 or self.parallel_jobs > rconfig().max_parallel_jobs:
    self.parallel_jobs = rconfig().max_parallel_jobs`
Python integers are unbounded and signed, so the embedding uses `Int`. -/

/-- `DockerBenchmark._validate`, as the function from the requested
`parallel_jobs` and the configured `max_parallel_jobs` to the value of
`self.parallel_jobs` after validation. -/
def validate_parallel_jobs (parallel_jobs max_parallel_jobs : Int) : Int :=
  if parallel_jobs = 0 ∨ parallel_jobs > max_parallel_jobs then max_parallel_jobs
  else parallel_jobs

/-! ## `_docker_image_exists`: textual existence check

`return re.match(r'^[0-9a-f]+$', output.strip())`

`str.strip()` removes leading/trailing Python whitespace; `re.match`
anchors at the start, and without `re.MULTILINE` the `$` matches at the
end of the string or just before one trailing newline. -/

/-- Python `str` whitespace (`str.strip` default set, ASCII part). -/
def isPyWhitespace (c : Char) : Bool :=
  c = ' ' || c = '\t' || c = '\n' || c = '\r' || c = '\x0b' || c = '\x0c'

/-- Python `str.strip()` on the character list of a string. -/
def pyStrip (s : List Char) : List Char :=
  ((s.dropWhile isPyWhitespace).reverse.dropWhile isPyWhitespace).reverse

/-- Membership in the regex character class `[0-9a-f]`. -/
def isLowerHex (c : Char) : Bool :=
  ('0' ≤ c && c ≤ '9') || ('a' ≤ c && c ≤ 'f')

/-- Matcher for the regex tail `[0-9a-f]*$` (no `re.MULTILINE`):
consumes hex characters and accepts at the end of input or just before a
single trailing newline. -/
def hexStarEnd : List Char → Bool
  | [] => true
  | [c] => c == '\n' || isLowerHex c
  | c :: rest => isLowerHex c && hexStarEnd rest

/-- Matcher for `re.match(r'^[0-9a-f]+$', ·)`: at least one `[0-9a-f]`
character, then `[0-9a-f]*$`. Returns whether a match object is truthy. -/
def reMatchHexLine : List Char → Bool
  | [] => false
  | c :: rest => isLowerHex c && hexStarEnd rest

/-- `DockerBenchmark._docker_image_exists`, as a function of the captured
output of the `docker images -q <image>` command. -/
def docker_image_exists (output : String) : Bool :=
  reMatchHexLine (pyStrip output.toList)

/-! ## `setup`: image lifecycle policy

```
def setup(self, mode, upload=False):
    if mode == Benchmark.SetupMode.skip:
        return
    if mode == Benchmark.SetupMode.auto and self._docker_image_exists():
        return
    custom_commands = ...
    self._generate_docker_script(custom_commands)
    self._build_docker_image(cache=(mode != Benchmark.SetupMode.force))
    if upload:
        self._upload_docker_image()
```

The external effects are reified into a trace: the result of the
existence query (`imageExists`) and of the descriptor file write
(`descriptorWriteOk`, `open(...,'w')` raising on failure) are inputs,
and the trace records which image actions ran. `builds` records one
entry per `_build_docker_image` call, holding its `cache` argument. -/

/-- Trace of the image actions performed by one `setup` call. -/
structure SetupTrace where
  queriedExistence : Bool
  generatedDescriptor : Bool
  raisedWriteError : Bool
  builds : List Bool
  published : Bool
deriving DecidableEq, Repr

/-- `DockerBenchmark.setup(mode, upload)`, with the outcomes of the two
external effects passed in. A failed descriptor write raises, aborting
the rest of the method body. -/
def setup (mode : SetupMode) (upload : Bool) (imageExists : Bool)
    (descriptorWriteOk : Bool) : SetupTrace :=
  if mode = .skip then
    ⟨false, false, false, [], false⟩
  else if mode = .auto ∧ imageExists = true then
    ⟨true, false, false, [], false⟩
  else if descriptorWriteOk then
    { queriedExistence := mode = .auto
      generatedDescriptor := true
      raisedWriteError := false
      builds := [decide (mode ≠ .force)]
      published := upload }
  else
    { queriedExistence := mode = .auto
      generatedDescriptor := false
      raisedWriteError := true
      builds := []
      published := false }

/-! ## Job factory -/

/-- The per-run context captured by the job factory methods:
`self.framework_name` and `self.benchmark_name`. -/
structure RunContext where
  framework_name : String
  benchmark_name : String
deriving DecidableEq, Repr

/-- A `Job` as produced by `_make_job`: its identifier and the
`script_params` string its deferred action passes to `_start_docker`. -/
structure Job where
  name : String
  script_params : String
deriving DecidableEq, Repr

/-- Python `sep.join(parts)`. -/
def joinWith (sep : String) : List String → String
  | [] => ""
  | [a] => a
  | a :: rest => a ++ sep ++ joinWith sep rest

/-- The job identifier
`"docker_{}_{}_{}".format(task_name if task_name else self.benchmark_name,
':'.join(folds), self.framework_name)` (Python truthiness: an absent or
empty task name falls back to the benchmark name). -/
def job_name (ctx : RunContext) (task_name : Option String) (folds : List String) :
    String :=
  "docker_" ++
    (match task_name with
      | none => ctx.benchmark_name
      | some t => if t = "" then ctx.benchmark_name else t) ++
    "_" ++ joinWith ":" folds ++ "_" ++ ctx.framework_name

/-- The `script_params` composed by `_make_job`'s deferred `_run` action:
`"{framework} {benchmark} {task_param} {folds_param}"` with
`task_param = '' if task_name is None else ('-t '+task_name)` and
`folds_param = '' if len(folds) == 0 else ' '.join(['-f']+folds)`. -/
def script_params (ctx : RunContext) (task_name : Option String)
    (folds : List String) : String :=
  ctx.framework_name ++ " " ++ ctx.benchmark_name ++ " " ++
    (match task_name with | none => "" | some t => "-t " ++ t) ++ " " ++
    (if folds.isEmpty then "" else joinWith " " ("-f" :: folds))

/-- `DockerBenchmark._make_job(task_name, folds)` after its first line
has stringified the folds (`folds = [] if folds is None else [str(f) for f in folds]`). -/
def make_job_str (ctx : RunContext) (task_name : Option String)
    (folds : List String) : Job :=
  { name := job_name ctx task_name folds
    script_params := script_params ctx task_name folds }

/-- `DockerBenchmark._make_job(task_name, folds)`: folds arrive as
Python ints (or `None`) and are stringified. -/
def make_job (ctx : RunContext) (task_name : Option String)
    (folds : Option (List Nat)) : Job :=
  make_job_str ctx task_name ((folds.getD []).map toString)

/-! ## `_start_docker`: container invocation -/

/-- The in-container command line: `script_params` with the fixed suffix
`-i /input -o /output -s skip` that `_start_docker` appends after
`{params}` in its `docker run` format string. -/
def in_container_cmd (params : String) : String :=
  params ++ " -i /input -o /output -s skip"

/-- The full command composed by `_start_docker`:
`"docker run -v {input}:/input -v {output}:/output --rm {image} {params}
-i /input -o /output -s skip"`. -/
def start_docker_cmd (input output image params : String) : String :=
  "docker run -v " ++ input ++ ":/input -v " ++ output ++ ":/output --rm " ++
    image ++ " " ++ in_container_cmd params

/-! ## `run` and `run_one` -/

/-- `DockerBenchmark.run`'s job-list construction: one whole-benchmark job
when `parallel_jobs == 1`, else the jobs delegated to the inherited
`_benchmark_jobs()` (an external collaborator, passed in). -/
def run_jobs (ctx : RunContext) (parallel_jobs : Int)
    (benchmark_jobs : List Job) : List Job :=
  if parallel_jobs = 1 then [make_job ctx none none]
  else benchmark_jobs

/-- Modelled from the spec: a `TaskDefinition` is "a named benchmark task
with a set of folds"; the record type itself is supplied by the external
benchmark-definition resolver and is not under `src/`. `folds` is the
number of cross-validation folds, the requested fold indices being
`0, ..., folds-1`. -/
structure TaskDefinition where
  name : String
  folds : Nat
deriving DecidableEq, Repr

/-- `DockerBenchmark._fold_job(task_def, fold)`:
`self._make_job(task_def.name, [fold])`. -/
def fold_job (ctx : RunContext) (task_def : TaskDefinition) (fold : Nat) : Job :=
  make_job ctx (some task_def.name) (some [fold])

/-- Modelled from the spec: `Benchmark._custom_task_jobs(task_def, fold)`
(defined in the inherited `benchmark` module, not under `src/`) produces
"one `Job` per fold" of the requested fold selector, an empty selector
meaning all folds of the task; each per-fold job is built by the
subclass's `_fold_job`. -/
def custom_task_jobs (ctx : RunContext) (task_def : TaskDefinition)
    (fold : Option (List Nat)) : List Job :=
  (fold.getD (List.range task_def.folds)).map (fold_job ctx task_def)

/-- The fold-selector test in `run_one`:
`fold is None or (isinstance(fold, list) and len(fold) > 1)`. -/
def foldSelectorWhole : Option (List Nat) → Bool
  | none => true
  | some l => l.length > 1

/-- `DockerBenchmark.run_one(task_name, fold)`'s job-list construction:
a single all-folds job when `parallel_jobs == 1` and the fold selector is
`None` or names more than one fold; otherwise delegate to
`_custom_task_jobs` on the resolved task definition. -/
def run_one_jobs (ctx : RunContext) (parallel_jobs : Int) (task_name : String)
    (task_def : TaskDefinition) (fold : Option (List Nat)) : List Job :=
  if parallel_jobs = 1 ∧ foldSelectorWhole fold = true then
    [make_job ctx (some task_name) fold]
  else
    custom_task_jobs ctx task_def fold

/-! ## Whitespace tokenization

Claims about the composed command line are stated over its
whitespace-separated tokens (the argument vector the shell would hand to
the in-container process). -/

/-- Split a character list into maximal space-free words, accumulating
the current word in reverse. -/
def wordsAux : List Char → List Char → List (List Char)
  | [], acc => if acc.isEmpty then [] else [acc.reverse]
  | c :: rest, acc =>
    if c = ' ' then
      if acc.isEmpty then wordsAux rest [] else acc.reverse :: wordsAux rest []
    else wordsAux rest (c :: acc)

/-- The space-separated words of a character list. -/
def words (l : List Char) : List (List Char) := wordsAux l []

/-- The whitespace tokens of a string. -/
def tokens (s : String) : List String := (words s.toList).map List.asString

/-- A shell word: nonempty and free of spaces (framework, benchmark and
task names and stringified fold indices all satisfy this). -/
def IsToken (s : String) : Prop := s ≠ "" ∧ ∀ c ∈ s.toList, c ≠ ' '

instance (s : String) : Decidable (IsToken s) :=
  inferInstanceAs (Decidable (s ≠ "" ∧ ∀ c ∈ s.toList, c ≠ ' '))

/-! ## Tokenization lemmas -/

theorem toList_append (a b : String) : (a ++ b).toList = a.toList ++ b.toList :=
  String.data_append a b

theorem asString_toList (s : String) : s.toList.asString = s := by
  cases s
  rfl

theorem toList_ne_nil (s : String) (h : s ≠ "") : s.toList ≠ [] := by
  intro hl
  apply h
  cases s with
  | mk data =>
    simp only [String.toList] at hl
    subst hl
    rfl

theorem wordsAux_append_space (b : List Char) :
    ∀ (a acc : List Char), wordsAux (a ++ ' ' :: b) acc = wordsAux a acc ++ words b
  | [], acc => by
    by_cases h : acc.isEmpty <;> simp [wordsAux, words, h]
  | c :: a', acc => by
    by_cases hc : c = ' '
    · subst hc
      by_cases h : acc.isEmpty <;>
        simp [wordsAux, h, wordsAux_append_space b a' []]
    · simp [wordsAux, hc, wordsAux_append_space b a' (c :: acc)]

theorem words_append_space (a b : List Char) :
    words (a ++ ' ' :: b) = words a ++ words b :=
  wordsAux_append_space b a []

theorem wordsAux_nospace :
    ∀ (l acc : List Char), (∀ c ∈ l, c ≠ ' ') → acc.reverse ++ l ≠ [] →
      wordsAux l acc = [acc.reverse ++ l]
  | [], acc, _, hne => by
    have hacc : ¬acc.isEmpty := by
      simpa [List.isEmpty_iff] using fun h => hne (by simp [h])
    simp [wordsAux, hacc]
  | c :: l', acc, h, _ => by
    have hc : c ≠ ' ' := h c (List.mem_cons_self c l')
    have h' : ∀ x ∈ l', x ≠ ' ' := fun x hx => h x (List.mem_cons_of_mem c hx)
    have hne' : (c :: acc).reverse ++ l' ≠ [] := by simp
    rw [wordsAux, if_neg hc, wordsAux_nospace l' (c :: acc) h' hne']
    simp

theorem words_nospace (l : List Char) (h : ∀ c ∈ l, c ≠ ' ') (hne : l ≠ []) :
    words l = [l] := by
  have := wordsAux_nospace l [] h (by simpa using hne)
  simpa [words] using this

theorem tokens_append_space (a b : String) :
    tokens (a ++ " " ++ b) = tokens a ++ tokens b := by
  unfold tokens
  rw [toList_append, toList_append,
      show (" " : String).toList = [' '] from rfl,
      List.append_assoc, List.singleton_append, words_append_space, List.map_append]

theorem tokens_of_token (s : String) (h : IsToken s) : tokens s = [s] := by
  unfold tokens
  rw [words_nospace s.toList h.2 (toList_ne_nil s h.1), List.map_singleton,
      asString_toList]

theorem tokens_joinWith :
    ∀ (parts : List String), (∀ p ∈ parts, IsToken p) →
      tokens (joinWith " " parts) = parts
  | [], _ => rfl
  | [a], h => tokens_of_token a (h a (by simp))
  | a :: b :: rest, h => by
    have heq : joinWith " " (a :: b :: rest) = a ++ " " ++ joinWith " " (b :: rest) := rfl
    rw [heq, tokens_append_space, tokens_of_token a (h a (by simp)),
        tokens_joinWith (b :: rest) (fun p hp => h p (by simp [List.mem_cons] at hp ⊢; tauto))]
    rfl

/-! ## Stripping and regex-matching lemmas -/

theorem head?_dropWhile (p : Char → Bool) :
    ∀ (l : List Char) (c : Char), (l.dropWhile p).head? = some c → p c = false
  | [], c, h => by simp [List.dropWhile] at h
  | x :: l', c, h => by
    cases hx : p x with
    | true =>
      rw [List.dropWhile_cons, if_pos hx] at h
      exact head?_dropWhile p l' c h
    | false =>
      rw [List.dropWhile_cons, if_neg (by simp [hx])] at h
      cases h
      exact hx

theorem pyStrip_getLast_not_ws (l : List Char) (c : Char)
    (h : (pyStrip l).getLast? = some c) : isPyWhitespace c = false := by
  unfold pyStrip at h
  rw [List.getLast?_reverse] at h
  exact head?_dropWhile isPyWhitespace _ c h

theorem hexStarEnd_eq_all :
    ∀ l : List Char, l.getLast? ≠ some '\n' → hexStarEnd l = l.all isLowerHex
  | [], _ => rfl
  | [c], h => by
    have hc : (c == '\n') = false := by
      simpa using fun e => h (by simp [e])
    simp [hexStarEnd, hc]
  | c :: d :: rest, h => by
    have h' : (d :: rest).getLast? ≠ some '\n' := by
      simpa [List.getLast?_cons_cons] using h
    simp [hexStarEnd, hexStarEnd_eq_all (d :: rest) h']

theorem reMatchHexLine_eq_all (l : List Char) (h : l.getLast? ≠ some '\n') :
    reMatchHexLine l = (!l.isEmpty && l.all isLowerHex) := by
  cases l with
  | nil => rfl
  | cons c rest =>
    have hrest : rest.getLast? ≠ some '\n' := by
      cases rest with
      | nil => simp
      | cons d rest' => simpa [List.getLast?_cons_cons] using h
    simp [reMatchHexLine, hexStarEnd_eq_all rest hrest]

/-- The existence check is exactly "the stripped output is a nonempty,
all-lower-hex line". -/
theorem docker_image_exists_eq (output : String) :
    docker_image_exists output =
      (!(pyStrip output.toList).isEmpty && (pyStrip output.toList).all isLowerHex) := by
  apply reMatchHexLine_eq_all
  intro hcon
  have := pyStrip_getLast_not_ws output.toList '\n' hcon
  simp [isPyWhitespace] at this

/-! ## Token structure of the composed command line -/

/-- The in-container argument vector produced by `_make_job`'s composed
`script_params` and `_start_docker`'s fixed trailing parameters. -/
theorem tokens_in_container (fr bench : String) (task : Option String)
    (folds : List String) (hfr : IsToken fr) (hbench : IsToken bench)
    (htask : ∀ t, task = some t → IsToken t)
    (hfolds : ∀ f ∈ folds, IsToken f) :
    tokens (in_container_cmd (script_params ⟨fr, bench⟩ task folds)) =
      [fr, bench] ++
        (match task with | none => [] | some t => ["-t", t]) ++
        (if folds.isEmpty then [] else "-f" :: folds) ++
        ["-i", "/input", "-o", "/output", "-s", "skip"] := by
  have hF : tokens (if folds.isEmpty then "" else joinWith " " ("-f" :: folds)) =
      (if folds.isEmpty then [] else "-f" :: folds) := by
    by_cases hfe : folds.isEmpty
    · rw [if_pos hfe, if_pos hfe]
      rfl
    · rw [if_neg hfe, if_neg hfe]
      exact tokens_joinWith ("-f" :: folds)
        (fun p hp => by
          rcases List.mem_cons.mp hp with h | h
          · subst h
            exact ⟨by decide, by decide⟩
          · exact hfolds p h)
  cases task with
  | none =>
    show tokens (fr ++ " " ++ bench ++ " " ++ "" ++ " " ++
        (if folds.isEmpty then "" else joinWith " " ("-f" :: folds)) ++
        " -i /input -o /output -s skip") =
      [fr, bench] ++ ([] : List String) ++
        (if folds.isEmpty then [] else "-f" :: folds) ++
        ["-i", "/input", "-o", "/output", "-s", "skip"]
    rw [show (" -i /input -o /output -s skip" : String) =
          " " ++ "-i /input -o /output -s skip" from rfl,
        ← String.append_assoc]
    simp only [tokens_append_space]
    rw [tokens_of_token fr hfr, tokens_of_token bench hbench, hF,
        show tokens "-i /input -o /output -s skip" =
          ["-i", "/input", "-o", "/output", "-s", "skip"] from rfl,
        show tokens "" = ([] : List String) from rfl]
    simp
  | some t =>
    have ht : IsToken t := htask t rfl
    show tokens (fr ++ " " ++ bench ++ " " ++ ("-t " ++ t) ++ " " ++
        (if folds.isEmpty then "" else joinWith " " ("-f" :: folds)) ++
        " -i /input -o /output -s skip") =
      [fr, bench] ++ ["-t", t] ++
        (if folds.isEmpty then [] else "-f" :: folds) ++
        ["-i", "/input", "-o", "/output", "-s", "skip"]
    rw [show (" -i /input -o /output -s skip" : String) =
          " " ++ "-i /input -o /output -s skip" from rfl,
        ← String.append_assoc,
        show ("-t " ++ t : String) = "-t" ++ " " ++ t from rfl]
    simp only [tokens_append_space]
    rw [tokens_of_token fr hfr, tokens_of_token bench hbench, hF,
        tokens_of_token t ht,
        show tokens "-i /input -o /output -s skip" =
          ["-i", "/input", "-o", "/output", "-s", "skip"] from rfl,
        show tokens "-t" = ["-t"] from rfl]
    simp

/-! ## Claims -/

/-- C1: for every setup call (with a succeeding descriptor write, the
failing case being C9), a build is triggered iff (mode `auto` and the
existence check returned false) or mode `force`; the build's cache flag
is disabled exactly for `force` and enabled for `auto`; and mode `skip`
performs no image action at all — no existence query, no descriptor
generation, no build, no publish — regardless of image existence. -/
theorem spec_c1_setup_build_policy (mode : SetupMode) (upload imageExists : Bool) :
    setup .skip upload imageExists true = ⟨false, false, false, [], false⟩ ∧
    ((setup mode upload imageExists true).builds.isEmpty = false ↔
      ((mode = .auto ∧ imageExists = false) ∨ mode = .force)) ∧
    (setup .force upload imageExists true).builds = [false] ∧
    (setup .auto upload false true).builds = [true] := by
  cases mode <;> cases upload <;> cases imageExists <;> decide

/-- C9: whenever the descriptor write fails, setup performs no build and
no publish, and the setup calls that reach the descriptor generation
(`auto` with a false existence check, and `force`) propagate the write
error. -/
theorem spec_c9_descriptor_write_failure_aborts (mode : SetupMode)
    (upload imageExists : Bool) :
    (setup mode upload imageExists false).builds = [] ∧
    (setup mode upload imageExists false).published = false ∧
    (setup .auto upload false false).raisedWriteError = true ∧
    (setup .force upload imageExists false).raisedWriteError = true := by
  cases mode <;> cases upload <;> cases imageExists <;> decide

/-- C3 counterexample: a negative request (`-5`, ceiling `10`) is passed
through unchanged by `_validate`, not corrected to the ceiling as the
claim states for negative values. -/
theorem spec_c3_negative_counterexample :
    validate_parallel_jobs (-5) 10 = -5 ∧
    ¬(validate_parallel_jobs (-5) 10 = 10) := by
  decide

/-- C3 amended: the value after validation equals `v` whenever `v ≠ 0`
and `v ≤ max_parallel_jobs` (in particular `1 ≤ v ≤ max` is kept, and a
negative `v` passes through unchanged), and equals `max_parallel_jobs`
when `v = 0` or `v > max_parallel_jobs`; the correction is silent and
the request is never rejected (the function is total). -/
theorem spec_c3_validate_clamping (v m : Int) :
    (v ≠ 0 ∧ v ≤ m → validate_parallel_jobs v m = v) ∧
    (v = 0 ∨ v > m → validate_parallel_jobs v m = m) := by
  constructor
  · intro h
    unfold validate_parallel_jobs
    rw [if_neg]
    rintro (h0 | hgt)
    · exact h.1 h0
    · exact absurd h.2 (not_le.mpr hgt)
  · intro h
    unfold validate_parallel_jobs
    rw [if_pos h]

theorem spec_c3_validate_clamping_witness :
    validate_parallel_jobs 3 10 = 3 ∧ validate_parallel_jobs 0 10 = 10 :=
  ⟨(spec_c3_validate_clamping 3 10).1 (by decide),
   (spec_c3_validate_clamping 0 10).2 (Or.inl rfl)⟩

/-- C4: the existence check reports exists=true on `"a1b2c3d4\n"`,
exists=false on `""` and on `"Error: no such image\n"`; in general it
reports true exactly when the stripped output is a nonempty line of
`[0-9a-f]` characters, and (being a total Boolean function) any other
output means "does not exist", never an error. -/
theorem spec_c4_existence_check :
    docker_image_exists "a1b2c3d4\n" = true ∧
    docker_image_exists "" = false ∧
    docker_image_exists "Error: no such image\n" = false ∧
    ∀ output : String,
      docker_image_exists output =
        (!(pyStrip output.toList).isEmpty && (pyStrip output.toList).all isLowerHex) :=
  ⟨by decide, by decide, by decide, docker_image_exists_eq⟩

/-- C10: any engine output whose stripped content contains a character
outside `[0-9a-f]` (upper-case hex digits included) makes the existence
check report that the image does not exist. -/
theorem spec_c10_uppercase_rejected (output : String) (c : Char)
    (hmem : c ∈ pyStrip output.toList) (hhex : isLowerHex c = false) :
    docker_image_exists output = false := by
  have hall : (pyStrip output.toList).all isLowerHex = false := by
    cases hall : (pyStrip output.toList).all isLowerHex
    · rfl
    · have := List.all_eq_true.mp hall c hmem
      rw [this] at hhex
      cases hhex
  rw [docker_image_exists_eq, hall, Bool.and_false]

theorem spec_c10_uppercase_rejected_witness :
    docker_image_exists "A1B2C3D4\n" = false :=
  spec_c10_uppercase_rejected "A1B2C3D4\n" 'A' (by decide) (by decide)

/-- C5: the image-reference derivation is a pure, deterministic function
of the `FrameworkDefinition` (equal inputs give the identical string);
with `image = None` it is `"{author}/{lower-cased name}:{tag}"`; and the
`h2o`/`org`/`stable` scenario yields `"org/h2o:stable"`. -/
theorem spec_c5_image_reference_pure (fd fd2 : FrameworkDefinition)
    (name author tag : String) (h : fd = fd2) :
    docker_image_name fd = docker_image_name fd2 ∧
    docker_image_name ⟨name, ⟨author, none, tag⟩⟩ =
      author ++ "/" ++ pyLower name ++ ":" ++ tag ∧
    docker_image_name ⟨"h2o", ⟨"org", none, "stable"⟩⟩ = "org/h2o:stable" :=
  ⟨congrArg docker_image_name h, rfl, by decide⟩

theorem spec_c5_image_reference_pure_witness :
    docker_image_name ⟨"h2o", ⟨"org", none, "stable"⟩⟩ =
      docker_image_name ⟨"h2o", ⟨"org", none, "stable"⟩⟩ ∧
    docker_image_name ⟨"h2o", ⟨"org", none, "stable"⟩⟩ =
      "org" ++ "/" ++ pyLower "h2o" ++ ":" ++ "stable" ∧
    docker_image_name ⟨"h2o", ⟨"org", none, "stable"⟩⟩ = "org/h2o:stable" :=
  spec_c5_image_reference_pure ⟨"h2o", ⟨"org", none, "stable"⟩⟩
    ⟨"h2o", ⟨"org", none, "stable"⟩⟩ "h2o" "org" "stable" rfl

/-- C2 counterexample: for task `"t1"` with folds `[0, 1]` (framework
`"h2o"`, benchmark `"small"`), the composed in-container command line is
`h2o small -t t1 -f 0 1 -i /input -o /output -s skip`: the benchmark
name appears alongside `-t t1`, and the two folds share a single `-f`
flag — not the claimed `<framework> -t <task> -f 0 -f 1 ...` shape with
each fold prefixed by `-f`. -/
theorem spec_c2_command_line_counterexample :
    tokens (in_container_cmd
        (make_job ⟨"h2o", "small"⟩ (some "t1") (some [0, 1])).script_params) =
      ["h2o", "small", "-t", "t1", "-f", "0", "1",
        "-i", "/input", "-o", "/output", "-s", "skip"] ∧
    ¬(tokens (in_container_cmd
        (make_job ⟨"h2o", "small"⟩ (some "t1") (some [0, 1])).script_params) =
      ["h2o", "-t", "t1", "-f", "0", "-f", "1",
        "-i", "/input", "-o", "/output", "-s", "skip"]) := by
  decide

/-- C2 amended: the composed command line consists of the framework name,
then always the benchmark name, then `-t <task>` when a task is named,
then — when folds are requested — a single `-f` flag followed by the
space-joined fold list, and always ends with the trailing in-container
parameters `-i /input -o /output -s skip` (so the in-container process
never re-runs its own setup); the full `docker run` invocation appends
exactly this in-container command line after the image name. -/
theorem spec_c2_command_line_structure (fr bench : String) (task : Option String)
    (folds : List String) (input output image : String)
    (hfr : IsToken fr) (hbench : IsToken bench)
    (htask : ∀ t, task = some t → IsToken t)
    (hfolds : ∀ f ∈ folds, IsToken f) :
    tokens (in_container_cmd (make_job_str ⟨fr, bench⟩ task folds).script_params) =
      [fr, bench] ++
        (match task with | none => [] | some t => ["-t", t]) ++
        (if folds.isEmpty then [] else "-f" :: folds) ++
        ["-i", "/input", "-o", "/output", "-s", "skip"] ∧
    start_docker_cmd input output image
        (make_job_str ⟨fr, bench⟩ task folds).script_params =
      "docker run -v " ++ input ++ ":/input -v " ++ output ++ ":/output --rm " ++
        image ++ " " ++
        in_container_cmd (make_job_str ⟨fr, bench⟩ task folds).script_params :=
  ⟨tokens_in_container fr bench task folds hfr hbench htask hfolds, rfl⟩

theorem spec_c2_command_line_structure_witness :
    tokens (in_container_cmd
        (make_job_str ⟨"h2o", "small"⟩ (some "t1") ["0", "1"]).script_params) =
      ["h2o", "small", "-t", "t1", "-f", "0", "1",
        "-i", "/input", "-o", "/output", "-s", "skip"] ∧
    start_docker_cmd "/data/in" "/data/out" "org/h2o:stable"
        (make_job_str ⟨"h2o", "small"⟩ (some "t1") ["0", "1"]).script_params =
      "docker run -v " ++ "/data/in" ++ ":/input -v " ++ "/data/out" ++
        ":/output --rm " ++ "org/h2o:stable" ++ " " ++
        in_container_cmd
          (make_job_str ⟨"h2o", "small"⟩ (some "t1") ["0", "1"]).script_params :=
  spec_c2_command_line_structure "h2o" "small" (some "t1") ["0", "1"]
    "/data/in" "/data/out" "org/h2o:stable"
    (by decide) (by decide)
    (fun t ht => by
      rw [← Option.some.inj ht]
      exact ⟨by decide, by decide⟩)
    (by decide)

/-- C6: a whole-benchmark run with `parallel_jobs = 1` produces exactly
one job, built by `_make_job()` with no task and no folds; its identifier
combines the benchmark name and the framework name, and its in-container
command line names the framework and the benchmark with no `-t` and no
`-f` argument, ending in `-i /input -o /output -s skip`. -/
theorem spec_c6_whole_benchmark_run (fr bench : String) (benchmark_jobs : List Job)
    (hfr : IsToken fr) (hbench : IsToken bench) :
    run_jobs ⟨fr, bench⟩ 1 benchmark_jobs = [make_job ⟨fr, bench⟩ none none] ∧
    (make_job ⟨fr, bench⟩ none none).name = "docker_" ++ bench ++ "__" ++ fr ∧
    tokens (in_container_cmd (make_job ⟨fr, bench⟩ none none).script_params) =
      [fr, bench, "-i", "/input", "-o", "/output", "-s", "skip"] := by
  refine ⟨rfl, ?_, ?_⟩
  · rw [show ("__" : String) = "_" ++ "_" from rfl]
    apply String.ext
    simp [make_job, make_job_str, job_name, joinWith, String.data_append,
          show ("" : String).data = [] from rfl]
  · have h := tokens_in_container fr bench none [] hfr hbench
      (fun t ht => by cases ht) (fun f hf => by cases hf)
    simpa [make_job, make_job_str] using h

theorem spec_c6_whole_benchmark_run_witness :
    run_jobs ⟨"h2o", "small"⟩ 1 [] = [make_job ⟨"h2o", "small"⟩ none none] ∧
    (make_job ⟨"h2o", "small"⟩ none none).name =
      "docker_" ++ "small" ++ "__" ++ "h2o" ∧
    tokens (in_container_cmd (make_job ⟨"h2o", "small"⟩ none none).script_params) =
      ["h2o", "small", "-i", "/input", "-o", "/output", "-s", "skip"] :=
  spec_c6_whole_benchmark_run "h2o" "small" [] (by decide) (by decide)

/-- C7: `run_one` produces a single all-requested-folds job when
`parallel_jobs = 1` and the fold selector is `None` or names more than
one fold; otherwise it produces one job per requested fold (all folds of
the task when the selector is `None`); and the single-task, single-fold,
`parallel_jobs = 1` request for fold `0` produces exactly one job whose
command line contains `-f 0`. -/
theorem spec_c7_single_task_job_partition (ctx : RunContext) (task_name : String)
    (task_def : TaskDefinition) (fold : Option (List Nat)) (parallel_jobs : Int) :
    (parallel_jobs = 1 ∧ foldSelectorWhole fold = true →
      run_one_jobs ctx parallel_jobs task_name task_def fold =
        [make_job ctx (some task_name) fold]) ∧
    (¬(parallel_jobs = 1 ∧ foldSelectorWhole fold = true) →
      run_one_jobs ctx parallel_jobs task_name task_def fold =
        (fold.getD (List.range task_def.folds)).map (fold_job ctx task_def)) ∧
    run_one_jobs ⟨"h2o", "small"⟩ 1 "t1" ⟨"t1", 10⟩ (some [0]) =
      [make_job ⟨"h2o", "small"⟩ (some "t1") (some [0])] ∧
    tokens (in_container_cmd
        (make_job ⟨"h2o", "small"⟩ (some "t1") (some [0])).script_params) =
      ["h2o", "small", "-t", "t1", "-f", "0",
        "-i", "/input", "-o", "/output", "-s", "skip"] := by
  refine ⟨fun h => ?_, fun h => ?_, by decide, by decide⟩
  · unfold run_one_jobs
    rw [if_pos h]
  · unfold run_one_jobs custom_task_jobs
    rw [if_neg h]

theorem spec_c7_single_task_job_partition_witness :
    run_one_jobs ⟨"h2o", "small"⟩ 1 "t1" ⟨"t1", 3⟩ none =
      [make_job ⟨"h2o", "small"⟩ (some "t1") none] ∧
    run_one_jobs ⟨"h2o", "small"⟩ 2 "t1" ⟨"t1", 3⟩ none =
      ((none : Option (List Nat)).getD (List.range 3)).map
        (fold_job ⟨"h2o", "small"⟩ ⟨"t1", 3⟩) :=
  ⟨(spec_c7_single_task_job_partition ⟨"h2o", "small"⟩ "t1" ⟨"t1", 3⟩ none 1).1
      ⟨rfl, rfl⟩,
   (spec_c7_single_task_job_partition ⟨"h2o", "small"⟩ "t1" ⟨"t1", 3⟩ none 2).2.1
      (by decide)⟩

/-- C8: the fold subset is part of the job identifier — the identifier is
`docker_<task-or-benchmark>_<colon-joined folds>_<framework>` — so
requesting task `"t1"` with fold `[0]` and with fold `[1]` in the same
run produces two jobs with distinct identifiers. -/
theorem spec_c8_job_identifier_uniqueness (ctx : RunContext) (t : String)
    (folds : List String) :
    ¬((make_job ⟨"h2o", "small"⟩ (some "t1") (some [0])).name =
        (make_job ⟨"h2o", "small"⟩ (some "t1") (some [1])).name) ∧
    (make_job_str ctx (some t) folds).name =
      "docker_" ++ (if t = "" then ctx.benchmark_name else t) ++ "_" ++
        joinWith ":" folds ++ "_" ++ ctx.framework_name :=
  ⟨by decide, rfl⟩

end AutoML
